import Mathlib

/-!
# Verification of the gnunet-rs client protocol machinery

A shallow embedding of the GNS lookup protocol (`src/gns/mod.rs`) and the
identity protocol (`src/identity/mod.rs`) of the `gnunet-rs` repository,
together with theorems settling the specification claims about them.

Bytes are modelled as natural numbers, byte streams as lists, and the
service connection as a list of already-deframed messages
(type code, body bytes) — the `service` module that performs framing is not
part of the given sources, so its `read_message` operation is modelled from
the spec (§4.2): it yields the next frame in arrival order and fails with
`Disconnected` on end of stream.  Fallible Rust code returns `Except`/`Option`;
a Rust `panic!`/failed `assert!`/`unwrap` on a `None` is modelled as a
distinguished `Outcome.panic` value.
-/

/-- A byte (0–255 on the wire; the readers only ever produce values built
from list elements, so no mod-256 normalisation is applied on reads). -/
abbrev Byte := Nat

/-- One deframed service message: type code plus body bytes.  This is the
value pair returned by the (spec-modelled) `ServiceReader::read_message`. -/
structure Frame where
  tpe : Nat
  body : List Byte
  deriving DecidableEq, Repr

/-- Big-endian 16-bit read from a byte stream (`ReadBytesExt::read_u16::<BigEndian>`
on a `Cursor`); `none` models the `UnexpectedEof` I/O error. -/
def readU16 : List Byte → Option (Nat × List Byte)
  | b1 :: b2 :: rest => some (b1 * 256 + b2, rest)
  | _ => none

/-- Big-endian 32-bit read (`read_u32::<BigEndian>`). -/
def readU32 (bs : List Byte) : Option (Nat × List Byte) :=
  match readU16 bs with
  | none => none
  | some (hi, bs) =>
    match readU16 bs with
    | none => none
    | some (lo, bs) => some (hi * 65536 + lo, bs)

/-- Big-endian 64-bit read (`read_u64::<BigEndian>`). -/
def readU64 (bs : List Byte) : Option (Nat × List Byte) :=
  match readU32 bs with
  | none => none
  | some (hi, bs) =>
    match readU32 bs with
    | none => none
    | some (lo, bs) => some (hi * 4294967296 + lo, bs)

/-- Read exactly `n` bytes; `none` models `UnexpectedEof`. -/
def takeN (n : Nat) (bs : List Byte) : Option (List Byte × List Byte) :=
  if n ≤ bs.length then some (bs.take n, bs.drop n) else none

/-- Big-endian 16-bit serialisation of `n % 2^16`. -/
def u16be (n : Nat) : List Byte := [n / 256 % 256, n % 256]

/-- Big-endian 32-bit serialisation of `n % 2^32`. -/
def u32be (n : Nat) : List Byte :=
  [n / 16777216 % 256, n / 65536 % 256, n / 256 % 256, n % 256]

/-- Outcome of running a public operation of the client: a success value,
an error of the operation's declared error type, or a Rust panic
(failed `assert!` / `unwrap` / `HashMap` index on a missing key). -/
inductive Outcome (ε α : Type) where
  | ok (val : α)
  | err (e : ε)
  | panic
  deriving DecidableEq, Repr

namespace Gnunet

/-! ## Protocol constants

The `ll` module (bindgen output of the GNUnet C headers) is not among the
given sources; the constants are modelled from the spec's §6 list of wire
message types, with the GNUnet daemon ABI values.  Only their distinctness
matters to the development. -/

/-- Modelled from the spec: maximum name length accepted by a GNS lookup
(`ll::GNUNET_DNSPARSER_MAX_NAME_LENGTH`, GNUnet ABI value 253). -/
def GNUNET_DNSPARSER_MAX_NAME_LENGTH : Nat := 253

/-- Modelled from the spec: `LOOKUP` message type code (GNS). -/
def GNUNET_MESSAGE_TYPE_GNS_LOOKUP : Nat := 500

/-- Modelled from the spec: `LOOKUP_RESULT` message type code (GNS). -/
def GNUNET_MESSAGE_TYPE_GNS_LOOKUP_RESULT : Nat := 501

/-- Modelled from the spec: identity `START` message type code. -/
def GNUNET_MESSAGE_TYPE_IDENTITY_START : Nat := 624

/-- Modelled from the spec: identity `RESULT_CODE` message type code. -/
def GNUNET_MESSAGE_TYPE_IDENTITY_RESULT_CODE : Nat := 625

/-- Modelled from the spec: identity `UPDATE` message type code. -/
def GNUNET_MESSAGE_TYPE_IDENTITY_UPDATE : Nat := 626

/-- Modelled from the spec: identity `GET_DEFAULT` message type code. -/
def GNUNET_MESSAGE_TYPE_IDENTITY_GET_DEFAULT : Nat := 627

/-- Modelled from the spec: identity `SET_DEFAULT` message type code. -/
def GNUNET_MESSAGE_TYPE_IDENTITY_SET_DEFAULT : Nat := 628

/-! ## Spec-modelled collaborators

The crypto module is an external collaborator (spec §1, §6): opaque
fixed-width key types with `derive_public` and `hash`.  It is modelled as a
pair of arbitrary functions over the 32-byte serialised forms. -/

/-- Modelled from the spec: the opaque crypto collaborator, §6 — a
private-key-to-public-key derivation and a public-key hash, both over the
fixed-width serialised representations. -/
structure Crypto where
  derivePublic : List Byte → List Byte
  hashPub : List Byte → List Byte

/-- Hash of the public key derived from a serialised private key
(`pk.get_public().hash()` in the source). -/
def Crypto.idOf (c : Crypto) (pk : List Byte) : List Byte :=
  c.hashPub (c.derivePublic pk)

/-- A trivial concrete crypto instance used to instantiate closed
counterexamples and witnesses; any deterministic instance exhibits the same
behaviour at the inputs used. -/
def cryptoId : Crypto := ⟨fun b => b, fun b => b⟩

/-- Modelled from the spec: `EcdsaPrivateKey::deserialize` reads the
fixed-width (32-byte) serialised private key, §6; insufficient bytes is an
I/O error (`none`). -/
def EcdsaPrivateKey.deserialize (bs : List Byte) : Option (List Byte × List Byte) :=
  takeN 32 bs

/-- `EcdsaPrivateKey::zeros()`: the all-zero 32-byte key used when no
shortening key is supplied. -/
def EcdsaPrivateKey.zeros : List Byte := List.replicate 32 0

/-- Modelled from the spec: `ReadMessageError` of the missing `service`
module.  At the frame level of this model only the clean-EOF case
(`Disconnected`, §4.2) can arise. -/
inductive ReadMessageError where
  | disconnected
  deriving DecidableEq, Repr

/-! ## Association maps

`std::collections::HashMap` is modelled as an association list whose
`insert` replaces the value of an existing key in place and appends a fresh
key at the end.  The only iteration the source performs on a map whose
order matters (`hm.into_iter()` in `GNS::lookup`) happens on a map that
provably holds at most one entry, so the modelled order is immaterial. -/

/-- `HashMap::insert`: replace in place, or append a fresh key. -/
def insertA {K V : Type} [DecidableEq K] (k : K) (v : V) :
    List (K × V) → List (K × V)
  | [] => [(k, v)]
  | (k', v') :: rest =>
    if k' = k then (k, v) :: rest else (k', v') :: insertA k v rest

/-- `HashMap` lookup (`map[&k]` / `map.get(&k)`). -/
def lookupA {K V : Type} [DecidableEq K] (k : K) :
    List (K × V) → Option V
  | [] => none
  | (k', v') :: rest => if k' = k then some v' else lookupA k rest

/-! ## GNS data model (`src/gns/mod.rs`) -/

/-- A GNS resource record.  `src/gns/record.rs` is not among the given
sources; the shape is modelled from the spec §4.5.5: fixed header
(expiration timestamp, record type, flags, data length) followed by
`data_length` opaque bytes. -/
structure Record where
  expiration : Nat
  recordType : Nat
  flags : Nat
  data : List Byte
  deriving DecidableEq, Repr

/-- Modelled from the spec: `Record::deserialize` (§4.5.5) — fixed header
of big-endian expiration (64-bit), record type, flags and data length
(32-bit each), then `data_length` opaque bytes; unknown record types are
preserved opaquely, never rejected; insufficient bytes is an I/O error. -/
def Record.deserialize (bs : List Byte) : Option (Record × List Byte) :=
  match readU64 bs with
  | none => none
  | some (expiration, bs) =>
    match readU32 bs with
    | none => none
    | some (recordType, bs) =>
      match readU32 bs with
      | none => none
      | some (flags, bs) =>
        match readU32 bs with
        | none => none
        | some (dataLen, bs) =>
          match takeN dataLen bs with
          | none => none
          | some (data, bs) => some (⟨expiration, recordType, flags, data⟩, bs)

/-- `LookupError` of `src/gns/mod.rs` (payloads of the I/O variants are
not tracked). -/
inductive LookupError where
  | invalidType (tpe : Nat)
  | nameTooLong (name : List Byte)
  | io
  | readMessage (cause : ReadMessageError)
  deriving DecidableEq, Repr

/-- A GNS lookup query (`LookupQuery`); the name is kept as its UTF-8
bytes (`&str`), whose list length is the Rust `name.len()`. -/
structure LookupQuery where
  name : List Byte
  zone : List Byte
  recordType : Nat
  options : Nat
  shorten : Option (List Byte)
  deriving DecidableEq, Repr

/-- The `LookupMessage` wire struct of `src/gns/mod.rs` (fields in host
form; `len` is the `total_length` value computed by `LookupMessage::new`,
80 bytes of packed struct plus the NUL-terminated name appended by
`send_with_str`). -/
structure LookupMessage where
  len : Nat
  tpe : Nat
  id : Nat
  zone : List Byte
  options : Nat
  have_key : Nat
  record_type : Nat
  shorten_key : List Byte
  name : List Byte
  deriving DecidableEq, Repr

/-- `LookupMessage::new` of `src/gns/mod.rs`. -/
def LookupMessage.new (id : Nat) (zone : List Byte) (options : Nat)
    (shorten : Option (List Byte)) (recordType : Nat) (name : List Byte) :
    LookupMessage :=
  { len := 80 + name.length + 1
    tpe := GNUNET_MESSAGE_TYPE_GNS_LOOKUP
    id := id
    zone := zone
    options := options
    have_key := if shorten.isSome then 1 else 0
    record_type := recordType
    shorten_key := shorten.getD EcdsaPrivateKey.zeros
    name := name }

namespace GNS

/-- The `for _ in 0..rd_count` record deserialisation loop of
`GNS::parse_lookup_result`. -/
def readRecords : Nat → List Byte → Option (List Record)
  | 0, _ => some []
  | n + 1, bs =>
    match Record.deserialize bs with
    | none => none
    | some (r, bs) =>
      match readRecords n bs with
      | none => none
      | some rs => some (r :: rs)

/-- `GNS::parse_lookup_result` of `src/gns/mod.rs`: on a `LOOKUP_RESULT`
frame, read the correlation id and the record count, deserialize that many
records, and insert the record list under the id only when it is
non-empty; any other type code is `InvalidType`. -/
def parse_lookup_result (tpe : Nat) (body : List Byte)
    (hashmap : List (Nat × List Record)) :
    Except LookupError (List (Nat × List Record)) :=
  if tpe = GNUNET_MESSAGE_TYPE_GNS_LOOKUP_RESULT then
    match readU32 body with
    | none => .error .io
    | some (id, bs) =>
      match readU32 bs with
      | none => .error .io
      | some (rdCount, bs) =>
        match readRecords rdCount bs with
        | none => .error .io
        | some records =>
          if records.isEmpty then .ok hashmap
          else .ok (insertA id records hashmap)
  else .error (.invalidType tpe)

/-- `GNS::lookup_loop` of `src/gns/mod.rs`: read one frame (EOF is the
service reader's `Disconnected`), feed it to `parse_lookup_result`, loop
while the accumulated map is empty, and resolve with the map as soon as it
is non-empty. -/
def lookup_loop : List Frame → List (Nat × List Record) →
    Except LookupError (List (Nat × List Record))
  | [], _ => .error (.readMessage .disconnected)
  | f :: rest, hashmap =>
    match parse_lookup_result f.tpe f.body hashmap with
    | .error e => .error e
    | .ok v => if v.isEmpty then lookup_loop rest v else .ok v

/-- The write half of `GNS::lookup`: the `query.into_iter().map(..)`
closure evaluated for every query when `Promise::all` collects the
iterator.  Each valid query consumes the next correlation id and its
message is written; an oversized name yields an already-rejected promise
instead (no id consumed, nothing written for it).  The error `Promise::all`
fails with is modelled as the first oversized query's, in list order.
Returns (messages written, batch error if any, next lookup id). -/
def lookupWrites (lookupId : Nat) :
    List LookupQuery → List LookupMessage × Option LookupError × Nat
  | [] => ([], none, lookupId)
  | q :: rest =>
    if GNUNET_DNSPARSER_MAX_NAME_LENGTH < q.name.length then
      let (msgs, err, nid) := lookupWrites lookupId rest
      (msgs, some (.nameTooLong q.name), (msgs, err, nid).2.2)
    else
      let msg := LookupMessage.new lookupId q.zone q.options q.shorten
        q.recordType q.name
      let (msgs, err, nid) := lookupWrites (lookupId + 1) rest
      (msg :: msgs, err, nid)

/-- The `hm.into_iter().map(|(id, v)| { assert_eq!(id, counter); .. })`
collect step at the end of `GNS::lookup`: fold the map entries checking
that the ids are consecutive from `counter`; a failed `assert_eq!` is a
panic (`none`). -/
def assertFold (counter : Nat) :
    List (Nat × List Record) → Option (List (List Record))
  | [] => some []
  | (id, v) :: rest =>
    if id = counter then
      match assertFold (counter + 1) rest with
      | none => none
      | some l => some (v :: l)
    else none

/-- `GNS::lookup` of `src/gns/mod.rs`, as a function of the handle's
current `lookup_id`, the query batch and the inbound frame stream.
Returns the messages written to the channel together with the outcome of
the returned promise. -/
def lookup (lookupId : Nat) (query : List LookupQuery) (frames : List Frame) :
    List LookupMessage × Outcome LookupError (List (List Record)) :=
  let (msgs, err, _) := lookupWrites lookupId query
  match err with
  | some e => (msgs, .err e)
  | none =>
    match lookup_loop frames [] with
    | .error e => (msgs, .err e)
    | .ok hm =>
      match assertFold lookupId hm with
      | none => (msgs, .panic)
      | some l => (msgs, .ok l)

end GNS

/-- `ConnectLookupError` of `src/gns/mod.rs`. -/
inductive ConnectLookupError where
  | connect
  | lookup (cause : LookupError)
  | io
  deriving DecidableEq, Repr

/-- The free function `gns::lookup` of `src/gns/mod.rs`: connect (modelled
as already established), issue the single query with a fresh handle
(`lookup_id = 0`), then `result.pop().unwrap().pop().unwrap()` — a `pop`
returns the last element and `unwrap` of `None` panics. -/
def lookupSingle (name : List Byte) (zone : List Byte) (recordType : Nat)
    (options : Nat) (shorten : Option (List Byte)) (frames : List Frame) :
    Outcome ConnectLookupError Record :=
  match (GNS.lookup 0 [⟨name, zone, recordType, options, shorten⟩] frames).2 with
  | .err e => .err (.lookup e)
  | .panic => .panic
  | .ok result =>
    match result.getLast? with
    | none => .panic
    | some inner =>
      match inner.getLast? with
      | none => .panic
      | some r => .ok r

/-! ## Identity data model (`src/identity/mod.rs`) -/

/-- Bytes of the name read by the `for r in mr.bytes()` loop of
`parse_egos`: everything up to the first NUL byte, or the whole remainder
if no NUL occurs (the loop ends at cursor end without error). -/
def takeUntilZero : List Byte → List Byte
  | [] => []
  | b :: rest => if b = 0 then [] else b :: takeUntilZero rest

/-- UTF-8 validity (RFC 3629) of a byte sequence; models the success of
Rust's `String::from_utf8`, including the overlong-encoding and surrogate
exclusions. -/
def validUtf8 : List Byte → Bool
  | [] => true
  | b :: rest =>
    if b < 0x80 then validUtf8 rest
    else if 0xC2 ≤ b ∧ b ≤ 0xDF then
      match rest with
      | c :: r2 => decide (0x80 ≤ c ∧ c ≤ 0xBF) && validUtf8 r2
      | _ => false
    else if b = 0xE0 then
      match rest with
      | c :: d :: r2 =>
        decide (0xA0 ≤ c ∧ c ≤ 0xBF) && decide (0x80 ≤ d ∧ d ≤ 0xBF) &&
          validUtf8 r2
      | _ => false
    else if (0xE1 ≤ b ∧ b ≤ 0xEC) ∨ b = 0xEE ∨ b = 0xEF then
      match rest with
      | c :: d :: r2 =>
        decide (0x80 ≤ c ∧ c ≤ 0xBF) && decide (0x80 ≤ d ∧ d ≤ 0xBF) &&
          validUtf8 r2
      | _ => false
    else if b = 0xED then
      match rest with
      | c :: d :: r2 =>
        decide (0x80 ≤ c ∧ c ≤ 0x9F) && decide (0x80 ≤ d ∧ d ≤ 0xBF) &&
          validUtf8 r2
      | _ => false
    else if b = 0xF0 then
      match rest with
      | c :: d :: e :: r2 =>
        decide (0x90 ≤ c ∧ c ≤ 0xBF) && decide (0x80 ≤ d ∧ d ≤ 0xBF) &&
          decide (0x80 ≤ e ∧ e ≤ 0xBF) && validUtf8 r2
      | _ => false
    else if 0xF1 ≤ b ∧ b ≤ 0xF3 then
      match rest with
      | c :: d :: e :: r2 =>
        decide (0x80 ≤ c ∧ c ≤ 0xBF) && decide (0x80 ≤ d ∧ d ≤ 0xBF) &&
          decide (0x80 ≤ e ∧ e ≤ 0xBF) && validUtf8 r2
      | _ => false
    else if b = 0xF4 then
      match rest with
      | c :: d :: e :: r2 =>
        decide (0x80 ≤ c ∧ c ≤ 0x8F) && decide (0x80 ≤ d ∧ d ≤ 0xBF) &&
          decide (0x80 ≤ e ∧ e ≤ 0xBF) && validUtf8 r2
      | _ => false
    else false

/-- A GNUnet identity (`Ego` of `src/identity/mod.rs`): serialised private
key, optional display name (kept as UTF-8 bytes), and the hash of the
derived public key. -/
structure Ego where
  pk : List Byte
  name : Option (List Byte)
  id : List Byte
  deriving DecidableEq, Repr

/-- `ConnectError` of `src/identity/mod.rs` (error payloads other than the
offending type code are not tracked). -/
inductive ConnectError where
  | connect
  | disconnected
  | io
  | readMessage (cause : ReadMessageError)
  | invalidName
  | unexpectedMessageType (ty : Nat)
  deriving DecidableEq, Repr

namespace IdentityService

/-- `IdentityService::parse_egos` of `src/identity/mod.rs`: read frames
from the service; an `UPDATE` frame yields `name_len` and `end_of_list`
16-bit fields — a non-zero `end_of_list` completes the sync with the egos
accumulated so far (no key or name bytes of that frame are touched),
otherwise the 32-byte private key is deserialised, the NUL-terminated name
read and UTF-8-checked, and the ego inserted under the hash of the derived
public key before recursing; any other frame type fails with
`UnexpectedMessageType`. -/
def parse_egos (c : Crypto) :
    List Frame → List (List Byte × Ego) →
    Except ConnectError (List (List Byte × Ego))
  | [], _ => .error (.readMessage .disconnected)
  | f :: rest, egos =>
    if f.tpe = GNUNET_MESSAGE_TYPE_IDENTITY_UPDATE then
      match readU16 f.body with
      | none => .error .io
      | some (_nameLen, bs) =>
        match readU16 bs with
        | none => .error .io
        | some (eol, bs) =>
          if eol ≠ 0 then .ok egos
          else
            match EcdsaPrivateKey.deserialize bs with
            | none => .error .io
            | some (pk, bs) =>
              let nameBytes := takeUntilZero bs
              if validUtf8 nameBytes then
                let id := c.idOf pk
                parse_egos c rest (insertA id ⟨pk, some nameBytes, id⟩ egos)
              else .error .invalidName
    else .error (.unexpectedMessageType f.tpe)

end IdentityService

/-- `GetDefaultEgoError` of `src/identity/mod.rs` (payloads of the I/O and
receive-name variants are not tracked). -/
inductive GetDefaultEgoError where
  | nameTooLong (name : List Byte)
  | io
  | readMessage (cause : ReadMessageError)
  | serviceResponse (response : List Byte)
  | malformedErrorResponse
  | receiveName
  | connect (cause : ConnectError)
  | invalidResponse
  | disconnected
  deriving DecidableEq, Repr

/-- Result of `ReadCString::read_c_string`, modelled from the spec (the
`util` module is not among the given sources): read bytes up to a NUL
terminator; end of stream before the NUL is `Disconnected`, invalid UTF-8
is a `FromUtf8` error. -/
inductive ReadCStringResult where
  | ok (s : List Byte)
  | fromUtf8
  | disconnected
  deriving DecidableEq, Repr

/-- Modelled from the spec: `read_c_string` of the missing `util` module —
bytes up to a NUL terminator, `Disconnected` if the stream ends first,
UTF-8 error if the bytes are invalid. -/
def readCString (bs : List Byte) : ReadCStringResult :=
  if (0 : Byte) ∈ bs then
    let s := takeUntilZero bs
    if validUtf8 s then .ok s else .fromUtf8
  else .disconnected

/-- Modelled from the spec: `read_c_string_with_len` of the missing `util`
module — read exactly `len` name bytes (the wire name is
`reply_name_len - 1` bytes, §4.4) and UTF-8-check them; a short read or
invalid UTF-8 is a `ReadCStringWithLenError` (surfaced by the caller as
`GetDefaultEgoError::ReceiveName`). -/
def readCStringWithLen (len : Nat) (bs : List Byte) :
    Except Unit (List Byte) :=
  match takeN len bs with
  | none => .error ()
  | some (s, _) => if validUtf8 s then .ok s else .error ()

/-- The `GET_DEFAULT` request written by `get_default_ego`: header length
and type, the `name_len + 1` field, the zero reserved field, and the
NUL-terminated service name. -/
structure GetDefaultMessage where
  len : Nat
  tpe : Nat
  nameLenField : Nat
  reserved : Nat
  name : List Byte
  deriving DecidableEq, Repr

namespace IdentityService

/-- `IdentityService::get_default_ego` of `src/identity/mod.rs`, as a
function of the crypto collaborator, the connect-time ego mirror, the
requested service name (UTF-8 bytes) and the inbound frame stream.
Returns the messages written to the channel and the outcome: the length
check happens before anything is written; a `RESULT_CODE` response
surfaces the service's message; a `SET_DEFAULT` response re-derives the
key hash and returns the mirror's ego under it when the wire name matches
the request (indexing the mirror panics when the hash is absent), and is
`InvalidResponse` on a zero `reply_name_len`, a non-zero reserved field or
a name mismatch; any other type is `InvalidResponse`. -/
def get_default_ego (c : Crypto) (egos : List (List Byte × Ego))
    (name : List Byte) (frames : List Frame) :
    List GetDefaultMessage × Outcome GetDefaultEgoError Ego :=
  let nameLen := name.length
  if 65535 < 8 + nameLen + 1 then ([], .err (.nameTooLong name))
  else
    let sent := [⟨8 + nameLen + 1, GNUNET_MESSAGE_TYPE_IDENTITY_GET_DEFAULT,
      nameLen + 1, 0, name⟩]
    match frames with
    | [] => (sent, .err (.readMessage .disconnected))
    | f :: _ =>
      if f.tpe = GNUNET_MESSAGE_TYPE_IDENTITY_RESULT_CODE then
        match readU32 f.body with
        | none => (sent, .err .io)
        | some (_code, bs) =>
          match readCString bs with
          | .disconnected => (sent, .err .disconnected)
          | .fromUtf8 => (sent, .err .malformedErrorResponse)
          | .ok s => (sent, .err (.serviceResponse s))
      else if f.tpe = GNUNET_MESSAGE_TYPE_IDENTITY_SET_DEFAULT then
        match readU16 f.body with
        | none => (sent, .err .io)
        | some (replyNameLen, bs) =>
          if replyNameLen = 0 then (sent, .err .invalidResponse)
          else
            match readU16 bs with
            | none => (sent, .err .io)
            | some (reservedField, bs) =>
              if reservedField = 0 then
                match EcdsaPrivateKey.deserialize bs with
                | none => (sent, .err .io)
                | some (pk, bs) =>
                  match readCStringWithLen (replyNameLen - 1) bs with
                  | .error _ => (sent, .err .receiveName)
                  | .ok s =>
                    if s = name then
                      let id := c.idOf pk
                      match lookupA id egos with
                      | none => (sent, .panic)
                      | some e => (sent, .ok e)
                    else (sent, .err .invalidResponse)
              else (sent, .err .invalidResponse)
      else (sent, .err .invalidResponse)

end IdentityService

/-! ## Frame builders

Constructors for the shaped frames the theorems quantify over; each builds
the byte layout the corresponding source parser consumes. -/

/-- Big-endian 64-bit serialisation of `n % 2^64`. -/
def u64be (n : Nat) : List Byte := u32be (n / 4294967296) ++ u32be n

/-- Wire form of a `Record`, matching `Record.deserialize`. -/
def Record.serialize (r : Record) : List Byte :=
  u64be r.expiration ++ u32be r.recordType ++ u32be r.flags ++
    u32be r.data.length ++ r.data

/-- A `LOOKUP_RESULT` frame: correlation id, record count, record bytes. -/
def mkResultFrame (id cnt : Nat) (recBytes : List Byte) : Frame :=
  ⟨GNUNET_MESSAGE_TYPE_GNS_LOOKUP_RESULT, u32be id ++ u32be cnt ++ recBytes⟩

/-- An identity `UPDATE` frame carrying an ego: `name_len` field (read but
only used as a capacity hint by the source), zero `end_of_list` flag, the
32-byte private key, and the NUL-terminated name. -/
def mkUpdateFrame (nameLen : Nat) (key name : List Byte) : Frame :=
  ⟨GNUNET_MESSAGE_TYPE_IDENTITY_UPDATE,
    u16be nameLen ++ u16be 0 ++ key ++ name ++ [0]⟩

/-- An identity sync terminator frame: a `name_len` field, a non-zero
`end_of_list` flag, and arbitrary unparsed trailing bytes. -/
def mkTermFrame (eol : Nat) (junk : List Byte) : Frame :=
  ⟨GNUNET_MESSAGE_TYPE_IDENTITY_UPDATE, u16be 0 ++ u16be eol ++ junk⟩

/-- The body of an identity `SET_DEFAULT` response: `reply_name_len`,
reserved field, 32-byte private key, wire name bytes. -/
def mkSetDefaultBody (replyNameLen reserved : Nat) (key nameBytes : List Byte) :
    List Byte :=
  u16be replyNameLen ++ u16be reserved ++ key ++ nameBytes

end Gnunet

namespace Gnunet

/-! ## Helper lemmas -/

theorem readU16_u16be (n : Nat) (rest : List Byte) (h : n < 65536) :
    readU16 (u16be n ++ rest) = some (n, rest) := by
  simp only [u16be, List.cons_append, List.nil_append, readU16,
    Option.some.injEq, Prod.mk.injEq, and_true]
  omega

theorem readU32_u32be (n : Nat) (rest : List Byte) (h : n < 4294967296) :
    readU32 (u32be n ++ rest) = some (n, rest) := by
  simp only [u32be, List.cons_append, List.nil_append, readU32, readU16,
    Option.some.injEq, Prod.mk.injEq, and_true]
  omega

theorem takeN_length_append (l rest : List Byte) :
    takeN l.length (l ++ rest) = some (l, rest) := by
  simp [takeN, List.take_left, List.drop_left]

theorem takeN_append (n : Nat) (l rest : List Byte) (h : l.length = n) :
    takeN n (l ++ rest) = some (l, rest) := by
  subst h; exact takeN_length_append l rest

theorem takeUntilZero_append (name junk : List Byte) (h : (0 : Byte) ∉ name) :
    takeUntilZero (name ++ 0 :: junk) = name := by
  induction name with
  | nil => simp [takeUntilZero]
  | cons b bs ih =>
    simp only [List.mem_cons, not_or] at h
    simp only [List.cons_append, takeUntilZero, List.append_eq]
    rw [if_neg (fun hb => h.1 hb.symm), ih h.2]

theorem insertA_fresh {K V : Type} [DecidableEq K] (k : K) (v : V)
    (m : List (K × V)) (h : k ∉ m.map Prod.fst) :
    insertA k v m = m ++ [(k, v)] := by
  induction m with
  | nil => rfl
  | cons p rest ih =>
    simp only [List.map_cons, List.mem_cons, not_or] at h
    simp only [insertA, List.cons_append]
    rw [if_neg (fun hk => h.1 hk.symm), ih h.2]

theorem lookupA_append_right {K V : Type} [DecidableEq K] (k : K)
    (m m' : List (K × V)) (h : k ∉ m.map Prod.fst) :
    lookupA k (m ++ m') = lookupA k m' := by
  induction m with
  | nil => rfl
  | cons p rest ih =>
    simp only [List.map_cons, List.mem_cons, not_or] at h
    simp only [List.cons_append, lookupA, List.append_eq]
    rw [if_neg (fun hk => h.1 hk.symm), ih h.2]

namespace GNS

theorem assertFold_length : ∀ (c : Nat) (m : List (Nat × List Record))
    (l : List (List Record)), assertFold c m = some l → l.length = m.length
  | _, [], l, h => by
    simp only [assertFold, Option.some.injEq] at h
    simp [← h]
  | c, (id, v) :: rest, l, h => by
    simp only [assertFold] at h
    split at h
    · cases heq : assertFold (c + 1) rest with
      | none => rw [heq] at h; exact absurd h (by simp)
      | some l' =>
        rw [heq] at h
        simp only [Option.some.injEq] at h
        have := assertFold_length (c + 1) rest l' heq
        simp [← h, this]
    · exact absurd h (by simp)

theorem lookup_loop_ok_not_nil : ∀ (frames : List Frame)
    (hm v : List (Nat × List Record)), lookup_loop frames hm = .ok v → v ≠ []
  | [], hm, v, h => by simp [lookup_loop] at h
  | f :: rest, hm, v, h => by
    simp only [lookup_loop] at h
    split at h
    · exact absurd h (by simp)
    · rename_i v' hp
      split at h
      · exact lookup_loop_ok_not_nil rest v' v h
      · rename_i he
        simp only [Except.ok.injEq] at h
        intro hn
        rw [hn] at h
        rw [h] at he
        simp at he

end GNS

namespace GNS

theorem parse_empty_result (i1 i2 i3 i4 : Byte) (rest : List Byte)
    (hm : List (Nat × List Record)) :
    parse_lookup_result GNUNET_MESSAGE_TYPE_GNS_LOOKUP_RESULT
      (i1 :: i2 :: i3 :: i4 :: 0 :: 0 :: 0 :: 0 :: rest) hm = .ok hm := rfl

theorem parse_result_zero_count (i : Nat) (hm : List (Nat × List Record)) :
    parse_lookup_result (mkResultFrame i 0 []).tpe (mkResultFrame i 0 []).body
      hm = .ok hm := rfl

theorem lookup_loop_empty_results (ids : List Nat) :
    lookup_loop (ids.map fun i => mkResultFrame i 0 []) [] =
      .error (.readMessage .disconnected) := by
  induction ids with
  | nil => rfl
  | cons i ids ih =>
    simp only [List.map_cons, lookup_loop, parse_result_zero_count,
      List.isEmpty_nil, if_pos]
    exact ih

end GNS

/-- The key–name pairs carried by a list of `UPDATE` frames. -/
def egoFrames (entries : List (List Byte × List Byte)) : List Frame :=
  entries.map fun p => mkUpdateFrame p.2.length p.1 p.2

/-- The mirror entry built from one key–name pair. -/
def Crypto.egoOf (c : Crypto) (p : List Byte × List Byte) : List Byte × Ego :=
  (c.idOf p.1, ⟨p.1, some p.2, c.idOf p.1⟩)

/-- The ego mirror built from a list of key–name pairs. -/
def egoMirror (c : Crypto) (entries : List (List Byte × List Byte)) :
    List (List Byte × Ego) :=
  entries.map c.egoOf

namespace IdentityService

theorem parse_egos_update_step (c : Crypto) (nameLen : Nat)
    (key name : List Byte) (rest : List Frame) (egos : List (List Byte × Ego))
    (hkey : key.length = 32) (hname : validUtf8 name = true)
    (h0 : (0 : Byte) ∉ name) :
    parse_egos c (mkUpdateFrame nameLen key name :: rest) egos =
      parse_egos c rest
        (insertA (c.idOf key) ⟨key, some name, c.idOf key⟩ egos) := by
  simp only [parse_egos, mkUpdateFrame, u16be, List.cons_append,
    List.nil_append, readU16, EcdsaPrivateKey.deserialize, if_true,
    List.append_eq]
  rw [if_neg (by omega)]
  rw [List.append_assoc key name [0]]
  rw [takeN_append 32 key (name ++ [0]) hkey]
  simp [takeUntilZero_append name [] h0, hname]

theorem parse_egos_term (c : Crypto) (eol : Nat) (junk : List Byte)
    (rest : List Frame) (egos : List (List Byte × Ego))
    (h0 : eol ≠ 0) (hlt : eol < 65536) :
    parse_egos c (mkTermFrame eol junk :: rest) egos = .ok egos := by
  simp only [parse_egos, mkTermFrame, u16be, List.cons_append,
    List.nil_append, readU16, if_true]
  rw [if_pos (by omega)]

theorem parse_egos_frames (c : Crypto)
    (entries : List (List Byte × List Byte)) (rest : List Frame)
    (egos : List (List Byte × Ego))
    (hkey : ∀ p ∈ entries, (p : List Byte × List Byte).1.length = 32)
    (hname : ∀ p ∈ entries, validUtf8 p.2 = true)
    (h0 : ∀ p ∈ entries, (0 : Byte) ∉ p.2)
    (hfresh : ∀ p ∈ entries, c.idOf p.1 ∉ egos.map Prod.fst)
    (hnodup : (entries.map fun p => c.idOf p.1).Nodup) :
    parse_egos c (egoFrames entries ++ rest) egos =
      parse_egos c rest (egos ++ egoMirror c entries) := by
  induction entries generalizing egos with
  | nil => simp [egoFrames, egoMirror]
  | cons p ps ih =>
    simp only [egoFrames, List.map_cons, List.cons_append]
    rw [parse_egos_update_step c p.2.length p.1 p.2 _ egos
      (hkey p (by simp)) (hname p (by simp)) (h0 p (by simp))]
    rw [insertA_fresh (c.idOf p.1) _ egos (hfresh p (by simp))]
    simp only [List.map_cons, List.nodup_cons] at hnodup
    have step := ih
      (egos ++ [(c.idOf p.1, ⟨p.1, some p.2, c.idOf p.1⟩)])
      (fun q hq => hkey q (List.mem_cons_of_mem p hq))
      (fun q hq => hname q (List.mem_cons_of_mem p hq))
      (fun q hq => h0 q (List.mem_cons_of_mem p hq))
      (fun q hq => by
        simp only [List.map_append, List.map_cons, List.map_nil,
          List.mem_append, List.mem_cons, List.not_mem_nil, or_false,
          not_or]
        exact ⟨hfresh q (List.mem_cons_of_mem p hq),
          fun hEq => hnodup.1 (hEq ▸ List.mem_map_of_mem _ hq)⟩)
      hnodup.2
    rw [show egoFrames ps = ps.map fun q => mkUpdateFrame q.2.length q.1 q.2
      from rfl] at step
    rw [step]
    simp [egoMirror, Crypto.egoOf, List.append_assoc]

end IdentityService

theorem takeN_exact (n : Nat) (l : List Byte) (h : l.length = n) :
    takeN n l = some (l, []) := by
  subst h
  simp [takeN, List.take_length, List.drop_length]

namespace GNS

theorem parse_invalid_type (t : Nat) (body : List Byte)
    (hm : List (Nat × List Record))
    (ht : t ≠ GNUNET_MESSAGE_TYPE_GNS_LOOKUP_RESULT) :
    parse_lookup_result t body hm = .error (.invalidType t) := by
  simp only [parse_lookup_result, if_neg ht]

theorem lookup_ok_inv (startId : Nat) (qs : List LookupQuery)
    (frames : List Frame) (l : List (List Record))
    (h : (lookup startId qs frames).2 = .ok l) :
    ∃ hm, lookup_loop frames [] = .ok hm ∧ assertFold startId hm = some l := by
  unfold lookup at h
  rcases hw : lookupWrites startId qs with ⟨msgs, err, nid⟩
  rw [hw] at h
  dsimp only at h
  cases err with
  | some e => simp at h
  | none =>
    dsimp only at h
    split at h
    · simp at h
    · rename_i hm hl
      split at h
      · simp at h
      · rename_i l' ha
        simp only [Outcome.ok.injEq] at h
        subst h
        exact ⟨hm, hl, ha⟩

theorem lookupWrites_oversized (i : Nat) (q : LookupQuery)
    (rest : List LookupQuery)
    (h : GNUNET_DNSPARSER_MAX_NAME_LENGTH < q.name.length) :
    lookupWrites i (q :: rest) =
      ((lookupWrites i rest).1, some (.nameTooLong q.name),
        (lookupWrites i rest).2.2) := by
  simp only [lookupWrites, if_pos h]

theorem lookupWrites_valid (i : Nat) (q : LookupQuery)
    (rest : List LookupQuery)
    (h : ¬GNUNET_DNSPARSER_MAX_NAME_LENGTH < q.name.length) :
    lookupWrites i (q :: rest) =
      (LookupMessage.new i q.zone q.options q.shorten q.recordType q.name ::
        (lookupWrites (i + 1) rest).1,
       (lookupWrites (i + 1) rest).2.1, (lookupWrites (i + 1) rest).2.2) := by
  simp only [lookupWrites, if_neg h]

theorem lookupWrites_fst_length (startId : Nat) (qs : List LookupQuery) :
    (lookupWrites startId qs).1.length =
      (qs.filter fun q =>
        q.name.length ≤ GNUNET_DNSPARSER_MAX_NAME_LENGTH).length := by
  induction qs generalizing startId with
  | nil => rfl
  | cons q rest ih =>
    by_cases hq : GNUNET_DNSPARSER_MAX_NAME_LENGTH < q.name.length
    · rw [lookupWrites_oversized startId q rest hq]
      simp only [List.filter_cons]
      rw [if_neg (by simp only [decide_eq_true_eq]; exact Nat.not_le.mpr hq)]
      exact ih startId
    · rw [lookupWrites_valid startId q rest hq]
      simp only [List.filter_cons]
      rw [if_pos (by simp only [decide_eq_true_eq]; exact Nat.not_lt.mp hq)]
      simp only [List.length_cons]
      rw [ih (startId + 1)]

theorem lookupWrites_err_of_oversized (startId : Nat) (qs : List LookupQuery)
    (hbad : ∃ q ∈ qs, GNUNET_DNSPARSER_MAX_NAME_LENGTH < q.name.length) :
    ∃ q ∈ qs, GNUNET_DNSPARSER_MAX_NAME_LENGTH < q.name.length
      ∧ (lookupWrites startId qs).2.1 = some (.nameTooLong q.name) := by
  induction qs generalizing startId with
  | nil => obtain ⟨q, hq, _⟩ := hbad; exact absurd hq (List.not_mem_nil q)
  | cons q rest ih =>
    by_cases hq : GNUNET_DNSPARSER_MAX_NAME_LENGTH < q.name.length
    · refine ⟨q, List.mem_cons_self q rest, hq, ?_⟩
      rw [lookupWrites_oversized startId q rest hq]
    · have hrest : ∃ p ∈ rest, GNUNET_DNSPARSER_MAX_NAME_LENGTH <
          p.name.length := by
        obtain ⟨p, hp, hplen⟩ := hbad
        rcases List.mem_cons.mp hp with hpq | hpr
        · exact absurd (hpq ▸ hplen) hq
        · exact ⟨p, hpr, hplen⟩
      obtain ⟨p, hp, hplen, herr⟩ := ih (startId + 1) hrest
      refine ⟨p, List.mem_cons_of_mem q hp, hplen, ?_⟩
      rw [lookupWrites_valid startId q rest hq]
      exact herr

theorem lookup_fst_eq_writes (startId : Nat) (qs : List LookupQuery)
    (frames : List Frame) :
    (lookup startId qs frames).1 = (lookupWrites startId qs).1 := by
  unfold lookup
  rcases hw : lookupWrites startId qs with ⟨msgs, err, nid⟩
  cases err with
  | some e => rfl
  | none =>
    dsimp only
    split
    · rfl
    · split <;> rfl

end GNS

/-! ## Claim theorems -/

/-- **C8**: for every service name whose encoded `GET_DEFAULT` length
`8 + name length + 1` does not fit in a `u16`, `get_default_ego` fails
with `NameTooLong` and writes nothing to the channel. -/
theorem c8_name_too_long_no_send (c : Crypto) (egos : List (List Byte × Ego))
    (name : List Byte) (frames : List Frame)
    (h : 65535 < 8 + name.length + 1) :
    IdentityService.get_default_ego c egos name frames =
      ([], .err (.nameTooLong name)) := by
  simp only [IdentityService.get_default_ego, if_pos h]

/-- Witness for `c8_name_too_long_no_send` at a 65527-byte name. -/
theorem c8_witness :
    IdentityService.get_default_ego cryptoId [] (List.replicate 65527 0) [] =
      ([], .err (.nameTooLong (List.replicate 65527 0))) :=
  c8_name_too_long_no_send cryptoId [] (List.replicate 65527 0) []
    (by rw [List.length_replicate]; omega)

/-- **C10**: a `LOOKUP_RESULT` frame whose record count field is zero
leaves the result accumulator unchanged in `parse_lookup_result`, and
feeding such a frame to the read loop just continues with the rest of the
stream — an empty result never marks a query as answered. -/
theorem c10_empty_result_ignored (i1 i2 i3 i4 : Byte) (rest : List Byte)
    (hm : List (Nat × List Record)) (restFrames : List Frame) :
    GNS.parse_lookup_result GNUNET_MESSAGE_TYPE_GNS_LOOKUP_RESULT
        (i1 :: i2 :: i3 :: i4 :: 0 :: 0 :: 0 :: 0 :: rest) hm = .ok hm
    ∧ GNS.lookup_loop
        (⟨GNUNET_MESSAGE_TYPE_GNS_LOOKUP_RESULT,
          i1 :: i2 :: i3 :: i4 :: 0 :: 0 :: 0 :: 0 :: rest⟩ :: restFrames) [] =
        GNS.lookup_loop restFrames [] :=
  ⟨rfl, rfl⟩

/-- **C9**: `GNS::lookup` on an empty query vector does not resolve with
an empty result list: on an already-closed stream it fails with the read
loop's `Disconnected` instead of returning `[]`; any successful resolution
carries a non-empty list; a stream of only zero-record `LOOKUP_RESULT`
frames is consumed entirely and still does not resolve; and a
non-`LOOKUP_RESULT` frame fails the promise with `InvalidType`. -/
theorem c9_empty_batch_still_reads (startId t : Nat) (body : List Byte)
    (frames rest : List Frame) (ids : List Nat) (l : List (List Record))
    (ht : t ≠ GNUNET_MESSAGE_TYPE_GNS_LOOKUP_RESULT)
    (hok : (GNS.lookup startId [] frames).2 = .ok l) :
    (GNS.lookup startId [] []).2 = .err (.readMessage .disconnected)
    ∧ l ≠ []
    ∧ (GNS.lookup startId [] (ids.map fun i => mkResultFrame i 0 [])).2 =
        .err (.readMessage .disconnected)
    ∧ (GNS.lookup startId [] (⟨t, body⟩ :: rest)).2 =
        .err (.invalidType t) := by
  refine ⟨rfl, ?_, ?_, ?_⟩
  · obtain ⟨hm, hl, ha⟩ := GNS.lookup_ok_inv startId [] frames l hok
    have hlen := GNS.assertFold_length startId hm l ha
    have hne := GNS.lookup_loop_ok_not_nil frames [] hm hl
    intro hnil
    rw [hnil] at hlen
    exact hne (List.eq_nil_of_length_eq_zero hlen.symm)
  · have hloop := GNS.lookup_loop_empty_results ids
    simp [GNS.lookup, GNS.lookupWrites, hloop]
  · have hloop : GNS.lookup_loop (⟨t, body⟩ :: rest) [] =
        .error (.invalidType t) := by
      simp only [GNS.lookup_loop]
      rw [GNS.parse_invalid_type t body [] ht]
    simp [GNS.lookup, GNS.lookupWrites, hloop]

/-- Witness for `c9_empty_batch_still_reads`: the hypotheses hold at the
concrete type code 499 and a stream whose one frame answers id 0 with one
record. -/
theorem c9_witness :
    (GNS.lookup 0 [] []).2 = .err (.readMessage .disconnected)
    ∧ [[(⟨0, 1, 0, [7]⟩ : Record)]] ≠ []
    ∧ (GNS.lookup 0 [] ([5, 9].map fun i => mkResultFrame i 0 [])).2 =
        .err (.readMessage .disconnected)
    ∧ (GNS.lookup 0 [] (⟨499, [1, 2]⟩ :: [])).2 = .err (.invalidType 499) :=
  c9_empty_batch_still_reads 0 499 [1, 2]
    [mkResultFrame 0 1 (Record.serialize ⟨0, 1, 0, [7]⟩)] [] [5, 9]
    [[⟨0, 1, 0, [7]⟩]] (by decide) (by decide)

/-- **C1**: contrary to the wait-for-all completion policy, `GNS::lookup`
resolves as soon as the first `LOOKUP_RESULT` with a non-empty record list
arrives: a batch of two issued queries ("a.gnu", "b.gnu" — two messages
written, ids 0 and 1) resolves successfully after a single result frame
for id 0, with id 1 still unanswered. -/
theorem c1_resolves_after_first_id :
    (GNS.lookup 0
      [⟨[97, 46, 103, 110, 117], List.replicate 32 0, 1, 0, none⟩,
       ⟨[98, 46, 103, 110, 117], List.replicate 32 0, 1, 0, none⟩]
      [mkResultFrame 0 1 (Record.serialize ⟨0, 1, 0, [7]⟩)]).1.length = 2
    ∧ (GNS.lookup 0
      [⟨[97, 46, 103, 110, 117], List.replicate 32 0, 1, 0, none⟩,
       ⟨[98, 46, 103, 110, 117], List.replicate 32 0, 1, 0, none⟩]
      [mkResultFrame 0 1 (Record.serialize ⟨0, 1, 0, [7]⟩)]).2 =
      .ok [[⟨0, 1, 0, [7]⟩]] := by decide

/-- **C2**: public operations can panic on remote input: `GNS::lookup` of
one query (id 0) receiving a well-formed `LOOKUP_RESULT` tagged id 1 hits
the `assert_eq!(id, counter)` in the collect step, and
`IdentityService::get_default_ego` receiving a `SET_DEFAULT` response
whose recomputed key hash is absent from the local mirror hits the
`self.egos[&id]` index panic. -/
theorem c2_public_operation_panics_on_remote_input :
    (GNS.lookup 0 [⟨[97], List.replicate 32 0, 1, 0, none⟩]
      [mkResultFrame 1 1 (Record.serialize ⟨0, 1, 0, [7]⟩)]).2 = .panic
    ∧ (IdentityService.get_default_ego cryptoId [] [97]
      [⟨GNUNET_MESSAGE_TYPE_IDENTITY_SET_DEFAULT,
        mkSetDefaultBody 2 0 (List.replicate 32 5) [97]⟩]).2 = .panic := by
  decide

/-- **C3**: the returned list does not follow query order: for the spec's
own three-query example ("a.gnu", "b.gnu", "c.example", ids 0–2) with the
result for id 2 arriving first, the promise does not resolve to a
three-element list — the collect step's `assert_eq!(id, counter)` panics
on the singleton accumulator `{2 ↦ records}`. -/
theorem c3_no_query_order_result :
    (GNS.lookup 0
      [⟨[97, 46, 103, 110, 117], List.replicate 32 0, 1, 0, none⟩,
       ⟨[98, 46, 103, 110, 117], List.replicate 32 0, 1, 0, none⟩,
       ⟨[99, 46, 101, 120, 97, 109, 112, 108, 101], List.replicate 32 0, 1, 0,
         none⟩]
      [mkResultFrame 2 1 (Record.serialize ⟨0, 1, 0, [7]⟩)]).2 = .panic := by
  decide

set_option maxRecDepth 8192 in
/-- **C4 counterexample**: a batch of a valid query ("a") followed by an
oversized one (254 bytes) does fail with `NameTooLong` naming the
offending query, but the valid query's message is still written to the
channel — the claim's "no bytes are written for any query of the batch" is
false. -/
theorem c4_counterexample :
    (GNS.lookup 0
      [⟨[97], List.replicate 32 0, 1, 0, none⟩,
       ⟨List.replicate 254 98, List.replicate 32 0, 1, 0, none⟩] []).2 =
      .err (.nameTooLong (List.replicate 254 98))
    ∧ (GNS.lookup 0
      [⟨[97], List.replicate 32 0, 1, 0, none⟩,
       ⟨List.replicate 254 98, List.replicate 32 0, 1, 0, none⟩] []).1 ≠
      [] := by decide

/-- **C4 (amended)**: a batch containing an oversized name fails as a
whole with `NameTooLong` naming an offending query, but the validation is
interleaved with sending rather than performed up front: one `LOOKUP`
message is still written to the channel for every query whose name passes
the length check. -/
theorem c4_batch_failure_still_sends (startId : Nat)
    (qs : List LookupQuery) (frames : List Frame)
    (hbad : ∃ q ∈ qs, GNUNET_DNSPARSER_MAX_NAME_LENGTH < q.name.length) :
    (GNS.lookup startId qs frames).1.length =
      (qs.filter fun q =>
        q.name.length ≤ GNUNET_DNSPARSER_MAX_NAME_LENGTH).length
    ∧ ∃ q ∈ qs, GNUNET_DNSPARSER_MAX_NAME_LENGTH < q.name.length
      ∧ (GNS.lookup startId qs frames).2 = .err (.nameTooLong q.name) := by
  have hmsgs := GNS.lookupWrites_fst_length startId qs
  obtain ⟨q, hq, hlen, herr⟩ := GNS.lookupWrites_err_of_oversized startId qs hbad
  refine ⟨?_, q, hq, hlen, ?_⟩
  · rw [GNS.lookup_fst_eq_writes, hmsgs]
  · unfold GNS.lookup
    rcases hw : GNS.lookupWrites startId qs with ⟨msgs, err, nid⟩
    rw [hw] at herr
    simp only at herr
    subst herr
    rfl

set_option maxRecDepth 8192 in
/-- Witness for `c4_batch_failure_still_sends` at a singleton batch with a
254-byte name. -/
theorem c4_witness :
    (GNS.lookup 0
      [⟨List.replicate 254 98, List.replicate 32 0, 1, 0, none⟩] []).1.length =
      (([⟨List.replicate 254 98, List.replicate 32 0, 1, 0, none⟩] :
        List LookupQuery).filter fun q =>
          q.name.length ≤ GNUNET_DNSPARSER_MAX_NAME_LENGTH).length
    ∧ ∃ q ∈ ([⟨List.replicate 254 98, List.replicate 32 0, 1, 0, none⟩] :
        List LookupQuery), GNUNET_DNSPARSER_MAX_NAME_LENGTH < q.name.length
      ∧ (GNS.lookup 0
          [⟨List.replicate 254 98, List.replicate 32 0, 1, 0, none⟩] []).2 =
          .err (.nameTooLong q.name) := by
  refine c4_batch_failure_still_sends 0
    [⟨List.replicate 254 98, List.replicate 32 0, 1, 0, none⟩] [] ?_
  exact ⟨⟨List.replicate 254 98, List.replicate 32 0, 1, 0, none⟩,
    List.mem_singleton.mpr rfl, by rw [List.length_replicate]; decide⟩

/-- **C5 counterexample**: two well-formed `UPDATE` frames carrying the
same private key followed by a terminator yield a mirror of one ego, not
two — the second insert overwrites the first under the same derived key
hash, so "exactly N egos" fails for N = 2. -/
theorem c5_counterexample :
    IdentityService.parse_egos cryptoId
      [mkUpdateFrame 2 (List.replicate 32 5) [97],
       mkUpdateFrame 2 (List.replicate 32 5) [98],
       mkTermFrame 1 []] [] =
      .ok [(List.replicate 32 5,
        ⟨List.replicate 32 5, some [98], List.replicate 32 5⟩)]
    ∧ [(List.replicate 32 5,
        (⟨List.replicate 32 5, some [98], List.replicate 32 5⟩ : Ego))].length ≠
      2 :=
  ⟨rfl, by decide⟩

/-- **C5 (amended)**: a stream of `UPDATE` frames whose derived key hashes
are pairwise distinct, followed by one terminator frame (`end_of_list ≠ 0`,
arbitrary unparsed trailing bytes), syncs successfully into a mirror with
exactly one ego per frame, keyed by the hash of the public key derived
from that frame's private key; with no `UPDATE` frames the mirror is empty
and the sync still succeeds.  Frames with colliding key hashes overwrite
one another (see the counterexample), which is the only deviation from the
original claim. -/
theorem c5_sync_mirror (c : Crypto) (entries : List (List Byte × List Byte))
    (eol : Nat) (junk : List Byte)
    (hkey : ∀ p ∈ entries, (p : List Byte × List Byte).1.length = 32)
    (hname : ∀ p ∈ entries, validUtf8 p.2 = true)
    (h0 : ∀ p ∈ entries, (0 : Byte) ∉ p.2)
    (hnodup : (entries.map fun p => c.idOf p.1).Nodup)
    (heol : eol ≠ 0) (hlt : eol < 65536) :
    IdentityService.parse_egos c (egoFrames entries ++ [mkTermFrame eol junk])
      [] = .ok (egoMirror c entries)
    ∧ (egoMirror c entries).length = entries.length := by
  constructor
  · rw [IdentityService.parse_egos_frames c entries [mkTermFrame eol junk] []
      hkey hname h0 (fun p _ => by simp) hnodup]
    rw [IdentityService.parse_egos_term c eol junk [] _ heol hlt]
    simp
  · simp [egoMirror]

/-- Witness for `c5_sync_mirror` at one ego (key `5^32`, name "a") and a
terminator with trailing junk. -/
theorem c5_witness :
    IdentityService.parse_egos cryptoId
      (egoFrames [(List.replicate 32 5, [97])] ++ [mkTermFrame 1 [9, 9]]) [] =
      .ok (egoMirror cryptoId [(List.replicate 32 5, [97])])
    ∧ (egoMirror cryptoId [(List.replicate 32 5, [97])]).length =
      ([(List.replicate 32 5, [97])] :
        List (List Byte × List Byte)).length := by
  refine c5_sync_mirror cryptoId [(List.replicate 32 5, [97])] 1 [9, 9]
    ?_ ?_ ?_ ?_ ?_ ?_
  · intro p hp; rw [List.mem_singleton] at hp; subst hp; rfl
  · intro p hp; rw [List.mem_singleton] at hp; subst hp; decide
  · intro p hp; rw [List.mem_singleton] at hp; subst hp; decide
  · simp
  · decide
  · decide

/-- **C6**: on a `GET_DEFAULT` query, a `SET_DEFAULT` response whose wire
name matches the request makes `get_default_ego` return the ego stored in
the local mirror under the hash of the public key recomputed from the wire
private key (whatever that mirror entry holds — not an ego built from the
wire payload); a mismatched wire name, a zero `reply_name_len`, a non-zero
reserved field, or any message type other than `RESULT_CODE`/`SET_DEFAULT`
is `InvalidResponse`. -/
theorem c6_get_default_ego_responses (c : Crypto)
    (egos : List (List Byte × Ego)) (name w key junk b : List Byte)
    (e : Ego) (r t : Nat)
    (hsz : 8 + name.length + 1 ≤ 65535)
    (hkey : key.length = 32)
    (hn : validUtf8 name = true)
    (hlook : lookupA (c.idOf key) egos = some e)
    (hw1 : validUtf8 w = true) (hw2 : w ≠ name)
    (hwlt : w.length + 1 < 65536)
    (hr : r ≠ 0) (hrlt : r < 65536)
    (ht1 : t ≠ GNUNET_MESSAGE_TYPE_IDENTITY_RESULT_CODE)
    (ht2 : t ≠ GNUNET_MESSAGE_TYPE_IDENTITY_SET_DEFAULT) :
    (IdentityService.get_default_ego c egos name
      [⟨GNUNET_MESSAGE_TYPE_IDENTITY_SET_DEFAULT,
        mkSetDefaultBody (name.length + 1) 0 key name⟩]).2 = .ok e
    ∧ (IdentityService.get_default_ego c egos name
      [⟨GNUNET_MESSAGE_TYPE_IDENTITY_SET_DEFAULT,
        mkSetDefaultBody (w.length + 1) 0 key w⟩]).2 = .err .invalidResponse
    ∧ (IdentityService.get_default_ego c egos name
      [⟨GNUNET_MESSAGE_TYPE_IDENTITY_SET_DEFAULT, u16be 0 ++ junk⟩]).2 =
      .err .invalidResponse
    ∧ (IdentityService.get_default_ego c egos name
      [⟨GNUNET_MESSAGE_TYPE_IDENTITY_SET_DEFAULT,
        mkSetDefaultBody (name.length + 1) r key name⟩]).2 =
      .err .invalidResponse
    ∧ (IdentityService.get_default_ego c egos name [⟨t, b⟩]).2 =
      .err .invalidResponse := by
  have h1 : ¬65535 < 8 + name.length + 1 := by omega
  have hlt1 : name.length + 1 < 65536 := by omega
  refine ⟨?_, ?_, ?_, ?_, ?_⟩
  · have e1 := readU16_u16be (name.length + 1) (u16be 0 ++ (key ++ name)) hlt1
    have e2 := readU16_u16be 0 (key ++ name) (by omega)
    have e3 := takeN_append 32 key name hkey
    have e4 : readCStringWithLen (name.length + 1 - 1) name = .ok name := by
      rw [Nat.add_sub_cancel]
      simp only [readCStringWithLen, takeN_exact name.length name rfl, hn,
        if_true]
    simp only [IdentityService.get_default_ego, if_neg h1, mkSetDefaultBody,
      List.append_assoc, GNUNET_MESSAGE_TYPE_IDENTITY_SET_DEFAULT,
      GNUNET_MESSAGE_TYPE_IDENTITY_RESULT_CODE, e1, e2, e3, e4,
      EcdsaPrivateKey.deserialize, hlook]
    simp
  · have e1 := readU16_u16be (w.length + 1) (u16be 0 ++ (key ++ w)) hwlt
    have e2 := readU16_u16be 0 (key ++ w) (by omega)
    have e3 := takeN_append 32 key w hkey
    have e4 : readCStringWithLen (w.length + 1 - 1) w = .ok w := by
      rw [Nat.add_sub_cancel]
      simp only [readCStringWithLen, takeN_exact w.length w rfl, hw1, if_true]
    simp only [IdentityService.get_default_ego, if_neg h1, mkSetDefaultBody,
      List.append_assoc, GNUNET_MESSAGE_TYPE_IDENTITY_SET_DEFAULT,
      GNUNET_MESSAGE_TYPE_IDENTITY_RESULT_CODE, e1, e2, e3, e4,
      EcdsaPrivateKey.deserialize]
    simp [if_neg hw2]
  · have e1 := readU16_u16be 0 junk (by omega)
    simp only [IdentityService.get_default_ego, if_neg h1,
      GNUNET_MESSAGE_TYPE_IDENTITY_SET_DEFAULT,
      GNUNET_MESSAGE_TYPE_IDENTITY_RESULT_CODE, e1]
    simp
  · have e1 := readU16_u16be (name.length + 1)
      (u16be r ++ (key ++ name)) hlt1
    have e2 := readU16_u16be r (key ++ name) hrlt
    simp only [IdentityService.get_default_ego, if_neg h1, mkSetDefaultBody,
      List.append_assoc, GNUNET_MESSAGE_TYPE_IDENTITY_SET_DEFAULT,
      GNUNET_MESSAGE_TYPE_IDENTITY_RESULT_CODE, e1, e2]
    simp [if_neg hr]
  · simp only [IdentityService.get_default_ego, if_neg h1, if_neg ht1,
      if_neg ht2]

/-- Witness for `c6_get_default_ego_responses` at a concrete mirror holding
one ego under key `5^32`, requested name "a", mismatching wire name "b",
reserved value 7 and foreign type code 999. -/
theorem c6_witness :
    (IdentityService.get_default_ego cryptoId
      [(cryptoId.idOf (List.replicate 32 5),
        ⟨List.replicate 32 5, some [120], cryptoId.idOf (List.replicate 32 5)⟩)]
      [97]
      [⟨GNUNET_MESSAGE_TYPE_IDENTITY_SET_DEFAULT,
        mkSetDefaultBody (List.length [97] + 1) 0 (List.replicate 32 5)
          [97]⟩]).2 =
      .ok ⟨List.replicate 32 5, some [120], cryptoId.idOf (List.replicate 32 5)⟩
    ∧ (IdentityService.get_default_ego cryptoId
      [(cryptoId.idOf (List.replicate 32 5),
        ⟨List.replicate 32 5, some [120], cryptoId.idOf (List.replicate 32 5)⟩)]
      [97]
      [⟨GNUNET_MESSAGE_TYPE_IDENTITY_SET_DEFAULT,
        mkSetDefaultBody (List.length [98] + 1) 0 (List.replicate 32 5)
          [98]⟩]).2 = .err .invalidResponse
    ∧ (IdentityService.get_default_ego cryptoId
      [(cryptoId.idOf (List.replicate 32 5),
        ⟨List.replicate 32 5, some [120], cryptoId.idOf (List.replicate 32 5)⟩)]
      [97]
      [⟨GNUNET_MESSAGE_TYPE_IDENTITY_SET_DEFAULT, u16be 0 ++ [3, 3]⟩]).2 =
      .err .invalidResponse
    ∧ (IdentityService.get_default_ego cryptoId
      [(cryptoId.idOf (List.replicate 32 5),
        ⟨List.replicate 32 5, some [120], cryptoId.idOf (List.replicate 32 5)⟩)]
      [97]
      [⟨GNUNET_MESSAGE_TYPE_IDENTITY_SET_DEFAULT,
        mkSetDefaultBody (List.length [97] + 1) 7 (List.replicate 32 5)
          [97]⟩]).2 = .err .invalidResponse
    ∧ (IdentityService.get_default_ego cryptoId
      [(cryptoId.idOf (List.replicate 32 5),
        ⟨List.replicate 32 5, some [120], cryptoId.idOf (List.replicate 32 5)⟩)]
      [97] [⟨999, [4]⟩]).2 = .err .invalidResponse := by
  refine c6_get_default_ego_responses cryptoId
    [(cryptoId.idOf (List.replicate 32 5),
      ⟨List.replicate 32 5, some [120], cryptoId.idOf (List.replicate 32 5)⟩)]
    [97] [98] (List.replicate 32 5) [3, 3] [4]
    ⟨List.replicate 32 5, some [120], cryptoId.idOf (List.replicate 32 5)⟩
    7 999 (by decide) (by decide) (by decide) ?_ (by decide) (by decide)
    (by decide) (by decide) (by decide) (by decide) (by decide)
  rfl

/-- **C7**: during the identity connect-time sync, a frame of any type
other than `UPDATE` arriving before the terminator — as the next frame at
any point of the stream, including after a prefix of well-formed `UPDATE`
frames — fails the connect with `UnexpectedMessageType` carrying that type
code, and an `UPDATE` frame whose name bytes are not valid UTF-8 fails it
with `InvalidName`. -/
theorem c7_sync_errors (c : Crypto) (f : Frame) (rest rest2 : List Frame)
    (egos egos2 : List (List Byte × Ego))
    (entries : List (List Byte × List Byte)) (nameLen : Nat)
    (key bad : List Byte)
    (hf : f.tpe ≠ GNUNET_MESSAGE_TYPE_IDENTITY_UPDATE)
    (hkey : key.length = 32) (hbad : validUtf8 bad = false)
    (hbad0 : (0 : Byte) ∉ bad)
    (hkeyE : ∀ p ∈ entries, (p : List Byte × List Byte).1.length = 32)
    (hnameE : ∀ p ∈ entries, validUtf8 p.2 = true)
    (h0E : ∀ p ∈ entries, (0 : Byte) ∉ p.2)
    (hnodup : (entries.map fun p => c.idOf p.1).Nodup) :
    IdentityService.parse_egos c (f :: rest) egos =
      .error (.unexpectedMessageType f.tpe)
    ∧ IdentityService.parse_egos c (mkUpdateFrame nameLen key bad :: rest2)
        egos2 = .error .invalidName
    ∧ IdentityService.parse_egos c (egoFrames entries ++ f :: rest) [] =
      .error (.unexpectedMessageType f.tpe) := by
  refine ⟨?_, ?_, ?_⟩
  · simp only [IdentityService.parse_egos]
    rw [if_neg hf]
  · simp only [IdentityService.parse_egos, mkUpdateFrame, u16be,
      List.cons_append, List.nil_append, readU16,
      EcdsaPrivateKey.deserialize, if_true, List.append_eq]
    rw [if_neg (by omega)]
    rw [List.append_assoc key bad [0]]
    rw [takeN_append 32 key (bad ++ [0]) hkey]
    simp [takeUntilZero_append bad [] hbad0, hbad]
  · rw [IdentityService.parse_egos_frames c entries (f :: rest) []
      hkeyE hnameE h0E (fun p _ => by simp) hnodup]
    simp only [IdentityService.parse_egos]
    rw [if_neg hf]

/-- Witness for `c7_sync_errors`: one valid `UPDATE` for key `5^32`, then
a frame of type 999, and separately an `UPDATE` whose name byte 0xFF is
not valid UTF-8. -/
theorem c7_witness :
    IdentityService.parse_egos cryptoId (⟨999, [1]⟩ :: []) [] =
      .error (.unexpectedMessageType (Frame.mk 999 [1]).tpe)
    ∧ IdentityService.parse_egos cryptoId
        (mkUpdateFrame 2 (List.replicate 32 5) [255] :: []) [] =
        .error .invalidName
    ∧ IdentityService.parse_egos cryptoId
        (egoFrames [(List.replicate 32 5, [97])] ++ ⟨999, [1]⟩ :: []) [] =
      .error (.unexpectedMessageType (Frame.mk 999 [1]).tpe) := by
  refine c7_sync_errors cryptoId ⟨999, [1]⟩ [] [] [] []
    [(List.replicate 32 5, [97])] 2 (List.replicate 32 5) [255]
    (by decide) (by decide) (by decide) (by decide) ?_ ?_ ?_ (by simp)
  · intro p hp; rw [List.mem_singleton] at hp; subst hp; rfl
  · intro p hp; rw [List.mem_singleton] at hp; subst hp; decide
  · intro p hp; rw [List.mem_singleton] at hp; subst hp; decide

end Gnunet
